import Mathlib

/-!
A shallow embedding of the Round Orchestration & Consensus Engine of the
mediAgent repository (src/core/models.py, src/core/session.py,
src/core/mediagent.py), together with theorems settling the frozen claims
about it.

Modelling conventions:
* Python dicts are association lists `List (key × value)` in insertion
  order; `d[k] = v` is `aset` (replace in place, else append) and `d.get`
  is `alookup`.
* `datetime.now()` values are abstract `Nat` timestamps threaded in as a
  `now` argument.
* Python floats in the coverage computation are modelled as `ℚ`; the
  comparisons the code performs (`≥ 100`, `≥ min_response_percentage`)
  are exact at the reachable operand sizes, so the rational model agrees
  with the float computation.
* Text-generation calls (`llm.generate`) are oracles passed in as
  `Option String` arguments; `none` models the call raising.
* Fields of the Python classes that none of the verified operations read
  (uuid ids, platform handles, log payloads) are omitted; all fields the
  orchestration logic reads or writes are kept under their source names.
-/

namespace Mediagent

/-- Association-list lookup, mirroring Python `dict.get`. -/
def alookup {α β : Type} [BEq α] (k : α) (l : List (α × β)) : Option β :=
  match l.find? (fun p => p.1 == k) with
  | some p => some p.2
  | none => none

/-- Association-list write, mirroring Python `d[k] = v`: replace the
binding in place when the key is present (a dict holds each key at most
once), append otherwise. -/
def aset {α β : Type} [BEq α] : List (α × β) → α → β → List (α × β)
  | [], k, v => [(k, v)]
  | p :: l, k, v => if p.1 == k then (k, v) :: l else p :: aset l k v

/-- `SessionStatus` from src/core/models.py. -/
inductive SessionStatus where
  | created
  | collecting
  | processing
  | voting
  | completed
  | cancelled
deriving DecidableEq

/-- `MemberRole` from src/core/models.py. -/
inductive MemberRole where
  | admin
  | participant
deriving DecidableEq

/-- `Member` from src/core/models.py (platform identifiers and join
timestamp omitted: the orchestration code never reads them). -/
structure Member where
  id : String
  name : String
  role : MemberRole := .participant
  is_active : Bool := true
deriving DecidableEq

/-- `Response` from src/core/models.py (uuid and wall-clock timestamp
omitted). -/
structure Response where
  member_id : String
  round_number : Nat
  question : String
  answer : String
deriving DecidableEq

/-- `RoundData` from src/core/models.py. -/
structure RoundData where
  round_number : Nat
  questions : List (String × String) := []
  responses : List (String × Response) := []
  started_at : Option Nat := none
  completed_at : Option Nat := none
deriving DecidableEq

/-- `ProposedSolution` from src/core/models.py (uuid omitted). -/
structure ProposedSolution where
  title : String
  description : String
  pros : List String := []
  cons : List String := []
  votes : List String := []
deriving DecidableEq

/-- `Decision` from src/core/models.py (creation timestamp omitted). -/
structure Decision where
  summary : String
  key_agreements : List String := []
  remaining_tensions : List String := []
  proposed_solutions : List ProposedSolution := []
  winning_solution : Option ProposedSolution := none
deriving DecidableEq

/-- `Session` from src/core/models.py (invite code and creation timestamp
omitted). -/
structure Session where
  topic : String
  max_iterations : Nat := 3
  timeout_seconds : Nat := 300
  min_response_percentage : Nat := 60
  admin_id : String
  members : List (String × Member) := []
  status : SessionStatus := .created
  current_round : Nat := 0
  rounds : List (Nat × RoundData) := []
  decision : Option Decision := none
  started_at : Option Nat := none
  completed_at : Option Nat := none
deriving DecidableEq

/-- `Session.get_active_members` from src/core/models.py. -/
def Session.get_active_members (s : Session) : List Member :=
  (s.members.map (fun p => p.2)).filter (fun m => m.is_active)

/-- `Session.get_current_round_data` from src/core/models.py. -/
def Session.get_current_round_data (s : Session) : Option RoundData :=
  alookup s.current_round s.rounds

/-- `Session.start_new_round` from src/core/models.py: increments
`current_round` and installs a fresh `RoundData` stamped `started_at`. -/
def Session.start_new_round (s : Session) (now : Nat) : Session :=
  let cr := s.current_round + 1
  { s with
    current_round := cr
    rounds := aset s.rounds cr { round_number := cr, started_at := some now } }

/-- `Session.get_response_percentage` from src/core/models.py: percentage
of active members that responded in the current round, `0.0` when the
round is missing or no member is active. -/
def Session.get_response_percentage (s : Session) : ℚ :=
  match s.get_current_round_data with
  | none => 0
  | some round_data =>
    match s.get_active_members with
    | [] => 0
    | active =>
      ((round_data.responses.length : ℚ) / (active.length : ℚ)) * 100

/-- `Session.all_responses_received` from src/core/models.py. -/
def Session.all_responses_received (s : Session) : Bool :=
  decide (100 ≤ s.get_response_percentage)

/-- `Session.min_responses_received` from src/core/models.py. -/
def Session.min_responses_received (s : Session) : Bool :=
  decide ((s.min_response_percentage : ℚ) ≤ s.get_response_percentage)

/-- Result triple of `SessionManager.submit_response`. -/
structure SubmitRes where
  session : Session
  ok : Bool
  err : String
deriving DecidableEq

/-- `SessionManager.submit_response` from src/core/session.py, on the
session the manager looked up (the not-found case returns the caller an
error without touching any session). -/
def submit_response (s : Session) (member_id answer : String) : SubmitRes :=
  if s.status ≠ .collecting then
    ⟨s, false, "Session is not currently collecting responses"⟩
  else if (alookup member_id s.members).isNone then
    ⟨s, false, "You are not a member of this session"⟩
  else
    match s.get_current_round_data with
    | none => ⟨s, false, "No active round"⟩
    | some round_data =>
      if (alookup member_id round_data.responses).isSome then
        ⟨s, false, "You have already submitted a response for this round"⟩
      else
        let question := (alookup member_id round_data.questions).getD ""
        let response : Response :=
          { member_id := member_id
            round_number := s.current_round
            question := question
            answer := answer }
        ⟨{ s with
            rounds := aset s.rounds s.current_round
              { round_data with responses := round_data.responses ++ [(member_id, response)] } },
          true, ""⟩

/-- The `Response` object `submit_response` records (named for use in
lemma statements). -/
def new_response (s : Session) (m a : String) (rd : RoundData) : Response :=
  { member_id := m
    round_number := s.current_round
    question := (alookup m rd.questions).getD ""
    answer := a }

/-! ### Python string helpers -/

/-- Python `\s` / `str.strip` whitespace on the characters the code can
meet (ASCII whitespace). -/
def pySpace (c : Char) : Bool :=
  c = ' ' || c = '\t' || c = '\n' || c = '\r' || c = '\x0b' || c = '\x0c'

/-- Strip leading whitespace (half of Python `str.strip`). -/
def stripL (cs : List Char) : List Char := cs.dropWhile pySpace

/-- Strip trailing whitespace (half of Python `str.strip`). -/
def stripR (cs : List Char) : List Char := (cs.reverse.dropWhile pySpace).reverse

/-- Python `str.strip` on character lists. -/
def stripLR (cs : List Char) : List Char := stripR (stripL cs)

/-- Python `str.strip` on strings. -/
def pyStrip (s : String) : String := String.mk (stripLR s.toList)

/-- Python `t.strip().endswith("}")` — for the single-character suffix
this is a last-character test on the stripped text (false on empty). -/
def strip_ends_with_brace (t : String) : Bool :=
  (stripLR t.toList).getLast? == some '}'

/-- Case-insensitive literal match: consume `lit` (given lowercased) from
the front of `cs`, returning the remainder. -/
def matchLitCI (lit : List Char) (cs : List Char) : Option (List Char) :=
  match lit, cs with
  | [], rest => some rest
  | _ :: _, [] => none
  | l :: ls, c :: cs' => if c.toLower = l then matchLitCI ls cs' else none

/-- `re.search` driver: try a prefix-matcher at every position, leftmost
match first. -/
def searchP (f : List Char → Option Nat) : List Char → Option Nat
  | [] => none
  | c :: rest =>
    match f (c :: rest) with
    | some n => some n
    | none => searchP f rest

/-! ### `Mediagent._finalize_decision` (src/core/mediagent.py) -/

/-- Prefix matcher for the first tie-break regex
`Decision:\*\*\s*Option\s*(1|2|3)` with `re.IGNORECASE`. -/
def matchDecisionOpt (cs : List Char) : Option Nat :=
  match matchLitCI ("decision:**").toList cs with
  | none => none
  | some r =>
    match matchLitCI ("option").toList (r.dropWhile pySpace) with
    | none => none
    | some r2 =>
      match r2.dropWhile pySpace with
      | c :: _ =>
        if c = '1' then some 1 else if c = '2' then some 2 else if c = '3' then some 3
        else none
      | [] => none

/-- Prefix matcher for the tolerant tie-break regex `Option\s*(1|2|3)`
with `re.IGNORECASE`. -/
def matchOptionOnly (cs : List Char) : Option Nat :=
  match matchLitCI ("option").toList cs with
  | none => none
  | some r =>
    match r.dropWhile pySpace with
    | c :: _ =>
      if c = '1' then some 1 else if c = '2' then some 2 else if c = '3' then some 3
      else none
    | [] => none

/-- The two-stage "Option N" parse of `_finalize_decision`: the strict
`Decision:** Option N` pattern first, then the tolerant `Option N`. -/
def parseTieChoice (reply : String) : Option Nat :=
  match searchP matchDecisionOpt reply.toList with
  | some n => some n
  | none => searchP matchOptionOnly reply.toList

/-- The hard-coded reply `_finalize_decision` substitutes when the
tie-break generation call raises (`e` is the exception text). -/
def fallback_tie_text (e : String) : String :=
  "**The Tie-Breaker Decision:** Option 1\n**Rationale:** (Tie-break LLM failed: "
    ++ e.take 120 ++ ")"

/-- The winner set of `_finalize_decision`: all solutions whose vote
count equals the maximum count (`max(vote_counts)`). -/
def tieWinners (sols : List ProposedSolution) : List ProposedSolution :=
  let max_votes := (sols.map (fun x => x.votes.length)).foldl max 0
  sols.filter (fun x => x.votes.length == max_votes)

/-- `Mediagent._finalize_decision` from src/core/mediagent.py.
`tieReply` is the tie-break generation oracle (`none` models the call
raising, in which case the code substitutes `fallback_tie_text`).  The
out-of-range list index `solutions[chosen_idx - 1]` (unreachable with the
validated 3-option decisions) is modelled as the raise it would be: no
state change. -/
def finalize_decision (s : Session) (tieReply : Option String) (now : Nat) : Session :=
  match s.decision with
  | none => s
  | some d =>
    if d.proposed_solutions.isEmpty then s
    else
      let solutions := d.proposed_solutions
      let winners := tieWinners solutions
      if 1 < winners.length then
        let tie_break_text := tieReply.getD (fallback_tie_text "error")
        let chosen_idx := (parseTieChoice tie_break_text).getD 1
        let chosen_idx := max 1 (min 3 chosen_idx)
        match solutions.get? (chosen_idx - 1) with
        | none => s
        | some winner =>
          { s with
            decision := some { d with winning_solution := some winner }
            status := .completed
            completed_at := some now }
      else
        { s with
          decision := some { d with winning_solution := winners.head? }
          status := .completed
          completed_at := some now }

/-! ### Round processing and timers (src/core/mediagent.py) -/

/-- Result of `Mediagent._process_round`, with the two asynchronous
continuations (final synthesis / next-round generation, which take their
own generation oracles) recorded as invocation flags. -/
structure ProcRes where
  session : Session
  synthInvoked : Bool
  genNextInvoked : Bool
deriving DecidableEq

/-- `Mediagent._process_round` from src/core/mediagent.py: mark the
session `PROCESSING`, stamp the current round `completed_at`, then hand
off to synthesis (when `current_round >= max_iterations`) or next-round
generation. -/
def process_round (s : Session) (now : Nat) : ProcRes :=
  let s1 : Session := { s with status := .processing }
  let s2 : Session :=
    match s1.get_current_round_data with
    | some round_data =>
      { s1 with
        rounds := aset s1.rounds s1.current_round { round_data with completed_at := some now } }
    | none => s1
  if s2.max_iterations ≤ s2.current_round then ⟨s2, true, false⟩
  else ⟨s2, false, true⟩

/-- Which branch of `Mediagent._handle_timeout` ran: early return (no
session / already left `COLLECTING`), immediate quorum completion,
grace-period forced completion, or grace-period no-op (the re-check after
the sleep found the session no longer `COLLECTING`). -/
inductive TimeoutPath where
  | earlyReturn
  | quorum
  | graceProcessed
  | graceNoop
deriving DecidableEq

/-- `Mediagent._handle_timeout` from src/core/mediagent.py.  The handler
re-reads the session from the manager twice: when the timer fires
(`sFire`) and again after the 60-second grace sleep (`sWake`); other
events may have mutated shared state in between, so the two observations
are independent arguments.  Returns the session the handler left behind
and the branch taken. -/
def handle_timeout (sFire sWake : Option Session) (now : Nat) :
    Option Session × TimeoutPath :=
  match sFire with
  | none => (none, .earlyReturn)
  | some s =>
    if s.status ≠ .collecting then (some s, .earlyReturn)
    else if s.min_responses_received then
      (some (process_round s now).session, .quorum)
    else
      match sWake with
      | some w =>
        if w.status = .collecting then (some (process_round w now).session, .graceProcessed)
        else (some w, .graceNoop)
      | none => (none, .graceNoop)

/-- `INITIAL_QUESTION.format(topic=...)` from src/config/prompts.py. -/
def initial_question (topic : String) : String :=
  "Welcome to this group decision session!\n\nTopic: " ++ topic
    ++ "\n\nPlease share your initial thoughts on this topic. What is your perspective, and what outcomes would you consider ideal? What are your main concerns or priorities?"

/-- The per-member fallback question of `Mediagent._start_round`. -/
def fallback_question (topic : String) : String :=
  "Based on the discussion so far, what are your thoughts on " ++ topic ++ "?"

/-- `Mediagent._start_round` from src/core/mediagent.py: ensure the
current round's data exists, stamp `started_at`, set `COLLECTING`,
populate the questions (round 1: the initial question to every active
member; later rounds: the prepared questions, with a fallback for any
active member without one) and start the round timer (returned flag). -/
def start_round (s0 : Session) (prepared : Option (List (String × String))) (now : Nat) :
    Session × Bool :=
  let s := if (s0.get_current_round_data).isSome then s0 else s0.start_new_round now
  match s.get_current_round_data with
  | none => (s, false)
  | some round_data =>
    let round_data := { round_data with started_at := some now }
    let s := { s with status := SessionStatus.collecting }
    let questions :=
      if s.current_round = 1 then
        (s.get_active_members).foldl
          (fun acc m => aset acc m.id (initial_question s.topic)) round_data.questions
      else
        let qs := match prepared with
          | some q => q
          | none => round_data.questions
        (s.get_active_members).foldl
          (fun acc m => if (alookup m.id acc).isSome then acc
            else aset acc m.id (fallback_question s.topic)) qs
    let round_data := { round_data with questions := questions }
    ({ s with rounds := aset s.rounds s.current_round round_data }, true)

/-- Result of `Mediagent.handle_response` / `Mediagent.force_proceed`,
with the timer cancellation and the `_process_round` hand-off recorded as
flags. -/
structure RespRes where
  session : Session
  ok : Bool
  err : String
  timeoutCancelled : Bool
  processRoundInvoked : Bool
  synthInvoked : Bool
  genNextInvoked : Bool
  roundStarted : Bool
deriving DecidableEq

/-- `Mediagent.handle_response` from src/core/mediagent.py on the session
the manager looked up.  Round 0 is the admin scoping phase: fold the
answer into the topic, reset the rounds and start round 1.  Otherwise
record the response; if coverage reaches 100 percent, cancel the round
timer and process the round immediately. -/
def handle_response (s : Session) (member_id answer : String) (now : Nat) : RespRes :=
  if s.current_round = 0 then
    let s1 : Session :=
      { s with
        topic := s.topic ++ " (Constraints: " ++ answer ++ ")"
        status := .collecting
        rounds := []
        current_round := 0 }
    let s2 := s1.start_new_round now
    let s3 := (start_round s2 none now).1
    { session := s3, ok := true, err := ""
      timeoutCancelled := false, processRoundInvoked := false
      synthInvoked := false, genNextInvoked := false, roundStarted := true }
  else
    let r := submit_response s member_id answer
    if r.ok = false then
      { session := r.session, ok := false, err := r.err
        timeoutCancelled := false, processRoundInvoked := false
        synthInvoked := false, genNextInvoked := false, roundStarted := false }
    else if r.session.all_responses_received then
      let p := process_round r.session now
      { session := p.session, ok := true, err := ""
        timeoutCancelled := true, processRoundInvoked := true
        synthInvoked := p.synthInvoked, genNextInvoked := p.genNextInvoked
        roundStarted := false }
    else
      { session := r.session, ok := true, err := ""
        timeoutCancelled := false, processRoundInvoked := false
        synthInvoked := false, genNextInvoked := false, roundStarted := false }

/-- `Mediagent.force_proceed` from src/core/mediagent.py. -/
def force_proceed (s : Session) (now : Nat) : RespRes :=
  if s.status ≠ .collecting then
    { session := s, ok := false, err := "Session is not currently collecting responses"
      timeoutCancelled := false, processRoundInvoked := false
      synthInvoked := false, genNextInvoked := false, roundStarted := false }
  else
    let p := process_round s now
    { session := p.session, ok := true, err := ""
      timeoutCancelled := true, processRoundInvoked := true
      synthInvoked := p.synthInvoked, genNextInvoked := p.genNextInvoked
      roundStarted := false }

/-- `Mediagent.cancel_session` from src/core/mediagent.py on the session
the manager looked up: cancel the timer and set `CANCELLED` — with no
check of the current status. -/
def cancel_session (s : Session) : Session :=
  { s with status := .cancelled }

/-- Result of `Mediagent.handle_vote`. -/
structure VoteRes where
  session : Session
  ok : Bool
  err : String
  finalizeInvoked : Bool
deriving DecidableEq

/-- `Mediagent.handle_vote` from src/core/mediagent.py: guard the voting
phase and the option index, move the member's vote, and finalize once
every active member has voted somewhere. -/
def handle_vote (s : Session) (member_id : String) (option_index : Int)
    (tieReply : Option String) (now : Nat) : VoteRes :=
  if s.status ≠ .voting then ⟨s, false, "Session is not in voting phase", false⟩
  else
    match s.decision with
    | none => ⟨s, false, "No voting options available", false⟩
    | some d =>
      if d.proposed_solutions.isEmpty then ⟨s, false, "No voting options available", false⟩
      else if option_index < 0 ∨ (d.proposed_solutions.length : Int) ≤ option_index then
        ⟨s, false, "Invalid option", false⟩
      else
        let idx := option_index.toNat
        let sols := d.proposed_solutions.map
          (fun sol => { sol with votes := sol.votes.erase member_id })
        let sols := sols.mapIdx
          (fun j sol => if j = idx then { sol with votes := sol.votes ++ [member_id] } else sol)
        let s2 : Session := { s with decision := some { d with proposed_solutions := sols } }
        let all_voted := (s2.get_active_members).all
          (fun m => sols.any (fun sol => sol.votes.contains m.id))
        if all_voted then ⟨finalize_decision s2 tieReply now, true, "", true⟩
        else ⟨s2, true, "", false⟩

/-! ### `Mediagent._generate_next_questions` (src/core/mediagent.py) -/

/-- Result of `Mediagent._generate_next_questions`. -/
structure GenRes where
  session : Session
  synthInvoked : Bool
  roundStarted : Bool
  broadcasts : List String
deriving DecidableEq

/-- The question-mapping loop of `_generate_next_questions`: keep keys
that are member ids, resolve other keys against member names
case-insensitively (first match in insertion order), drop the rest. -/
def map_questions (s : Session) (qs : List (String × String)) : List (String × String) :=
  qs.foldl
    (fun acc kq =>
      if (alookup kq.1 s.members).isSome then aset acc kq.1 kq.2
      else
        match (s.members.map (fun p => p.2)).find?
            (fun m => m.name.toLower == kq.1.toLower) with
        | some m => aset acc m.id kq.2
        | none => acc)
    []

/-- The generic follow-up `_generate_next_questions` falls back to when
no question could be mapped to any member. -/
def generic_questions (s : Session) : List (String × String) :=
  (s.get_active_members).map
    (fun m => (m.id, "Based on the discussion so far, could you elaborate on your position regarding "
      ++ s.topic ++ "? What aspects are most important to you?"))

/-- The admin hint broadcast on a double generation failure below the
terminal round. -/
def force_proceed_hint : String :=
  "Admin can click 'Force Proceed' to continue with available responses."

/-- One successful attempt body of `_generate_next_questions`: map the
parsed questions, substitute the generic follow-ups if empty, then either
hand off to synthesis (`next_round > max_iterations`) or advance the
round and start it. -/
def gen_attempt (s : Session) (qs : List (String × String)) (now : Nat) : GenRes :=
  let mapped := map_questions s qs
  let mapped := if mapped.isEmpty then generic_questions s else mapped
  if s.max_iterations < s.current_round + 1 then
    { session := s, synthInvoked := true, roundStarted := false, broadcasts := [] }
  else
    let s1 := s.start_new_round now
    let s1 : Session := { s1 with status := .collecting }
    let s2 := (start_round s1 (some mapped) now).1
    { session := s2, synthInvoked := false, roundStarted := true, broadcasts := [] }

/-- `Mediagent._generate_next_questions` from src/core/mediagent.py.
Each attempt oracle bundles one `llm.generate` call together with the
question parsing of its reply: `some qs` is the parsed question map of a
reply, `none` models the attempt raising.  On a first failure the code
broadcasts the error and retries once; on a second failure the round is
not advanced — synthesis is handed off when
`current_round >= max_iterations - 1`, otherwise the session is set back
to `COLLECTING` and the admin force-proceed hint is broadcast. -/
def generate_next_questions (s : Session) (att1 att2 : Option (List (String × String)))
    (now : Nat) : GenRes :=
  match att1 with
  | some qs => gen_attempt s qs now
  | none =>
    match att2 with
    | some qs =>
      let r := gen_attempt s qs now
      { r with broadcasts := "An error occurred while processing" :: "Retrying..." :: r.broadcasts }
    | none =>
      let msgs := ["An error occurred while processing", "Retrying...",
        "Unable to process responses. The session will continue to the final synthesis."]
      if s.max_iterations - 1 ≤ s.current_round then
        { session := s, synthInvoked := true, roundStarted := false, broadcasts := msgs }
      else
        { session := { s with status := .collecting }, synthInvoked := false
          roundStarted := false
          broadcasts := msgs ++ [force_proceed_hint] }

/-! ### `Mediagent._extract_json_object` (src/core/mediagent.py) -/

/-- The backtick character (0x60). -/
def backquote : Char := Char.ofNat 96

/-- A triple-backtick code-fence marker. -/
def ticks : List Char := [backquote, backquote, backquote]

/-- Split a character list at the first occurrence of a triple-backtick
marker: the part before it and the part after it. -/
def splitAtTicks : List Char → Option (List Char × List Char)
  | [] => none
  | c :: cs =>
    if (c :: cs).take 3 = ticks then some ([], (c :: cs).drop 3)
    else (splitAtTicks cs).map (fun p => (c :: p.1, p.2))

/-- Consume an optional case-insensitive `json` language tag — the
`(?:json)?` group of the fence regex. -/
def dropJsonTag (cs : List Char) : List Char :=
  if (cs.take 4).map Char.toLower = ("json").toList then cs.drop 4 else cs

/-- The fence regex of `_extract_json_object`,
`re.search(r"```(?:json)?\s*(.*?)\s*```", t, DOTALL | IGNORECASE)`:
content of the first fenced block, stripped.  `none` when no complete
fenced block exists (in which case the code keeps `t` unchanged). -/
def fenceContent (t : List Char) : Option (List Char) :=
  (splitAtTicks t).bind fun p =>
    (splitAtTicks ((dropJsonTag p.2).dropWhile pySpace)).map fun q => stripLR q.1

/-- The brace-matching loop of `_extract_json_object`: walk the
characters from the first `{`, tracking nesting depth and an in-string
flag honoring backslash escapes; return the consumed characters once the
depth returns to zero. -/
def scanObj : List Char → Int → Bool → Bool → List Char → Option (List Char)
  | [], _, _, _, _ => none
  | c :: rest, depth, in_str, esc, acc =>
    if in_str = false ∧ c = '}' ∧ depth - 1 = 0 then some (acc ++ [c])
    else
      let st : Int × Bool × Bool :=
        if in_str then
          if esc then (depth, in_str, false)
          else if c = '\\' then (depth, in_str, true)
          else if c = '"' then (depth, false, esc)
          else (depth, in_str, esc)
        else
          if c = '"' then (depth, true, esc)
          else if c = '{' then (depth + 1, in_str, esc)
          else if c = '}' then (depth - 1, in_str, esc)
          else (depth, in_str, esc)
      scanObj rest st.1 st.2.1 st.2.2 (acc ++ [c])

/-- `Mediagent._extract_json_object` on character lists: strip, drop a
code fence if present, then brace-match from the first `{`. -/
def extractCore (cs : List Char) : Option (List Char) :=
  let t0 := stripLR cs
  let t := (fenceContent t0).getD t0
  let rest := t.dropWhile (fun c => c ≠ '{')
  if rest.isEmpty then none else scanObj rest 0 false false []

/-- `Mediagent._extract_json_object` from src/core/mediagent.py. -/
def extract_json_object (text : String) : Option String :=
  (extractCore text.toList).map String.mk

/-- Whether the brace-matching scan started at the head of `cs` closes. -/
def closes (cs : List Char) : Bool := (scanObj cs 0 false false []).isSome

/-- Whether `cs` contains a balanced brace-delimited object anywhere: a
position holding `{` from which the brace-matching scan closes. -/
def hasBalancedObject (cs : List Char) : Bool :=
  (List.range cs.length).any
    (fun i => ((cs.drop i).head? == some '{') && closes (cs.drop i))

/-! ### JSON values and `json.loads` (Python standard library, used by
`_try_parse_json`) -/

/-- Parsed JSON values.  Python ints and floats both land in `num : ℚ`
(their truthiness and equality agree there); object fields keep insertion
order with duplicate keys collapsed to the last one, as `json.loads`
does. -/
inductive Json where
  | null : Json
  | bool (b : Bool) : Json
  | num (q : ℚ) : Json
  | str (s : String) : Json
  | arr (elems : List Json) : Json
  | obj (fields : List (String × Json)) : Json

/-- Python truthiness of a JSON value. -/
def truthy : Json → Bool
  | .null => false
  | .bool b => b
  | .num q => decide (q ≠ 0)
  | .str s => decide (s ≠ "")
  | .arr l => !l.isEmpty
  | .obj l => !l.isEmpty

/-- Python `dict.get` on a JSON value (`none` on non-objects and missing
keys, both of which Python treats as falsy `None` here). -/
def jget (j : Json) (k : String) : Option Json :=
  match j with
  | .obj fields => alookup k fields
  | _ => none

/-- Truthiness of an optional JSON value (Python `None` is falsy). -/
def truthyOpt : Option Json → Bool
  | none => false
  | some j => truthy j

/-- JSON whitespace accepted by `json.loads`. -/
def jsonWs (c : Char) : Bool := c = ' ' || c = '\t' || c = '\n' || c = '\r'

/-- Hexadecimal digit value, for `\uXXXX` escapes. -/
def hexVal (c : Char) : Option Nat :=
  if '0' ≤ c ∧ c ≤ '9' then some (c.toNat - 48)
  else if 'a' ≤ c ∧ c ≤ 'f' then some (c.toNat - 87)
  else if 'A' ≤ c ∧ c ≤ 'F' then some (c.toNat - 70)
  else none

/-- JSON string body parser (after the opening quote): handles the
escape sequences of `json.loads` and rejects raw control characters, as
its strict mode does.  (`fuel` only bounds the recursion.) -/
def parseStr : Nat → List Char → List Char → Option (String × List Char)
  | 0, _, _ => none
  | _ + 1, [], _ => none
  | fuel + 1, c :: rest, acc =>
    if c = '"' then some (String.mk acc.reverse, rest)
    else if c = '\\' then
      match rest with
      | [] => none
      | e :: rest2 =>
        if e = '"' then parseStr fuel rest2 ('"' :: acc)
        else if e = '\\' then parseStr fuel rest2 ('\\' :: acc)
        else if e = '/' then parseStr fuel rest2 ('/' :: acc)
        else if e = 'b' then parseStr fuel rest2 ('\x08' :: acc)
        else if e = 'f' then parseStr fuel rest2 ('\x0c' :: acc)
        else if e = 'n' then parseStr fuel rest2 ('\n' :: acc)
        else if e = 'r' then parseStr fuel rest2 ('\r' :: acc)
        else if e = 't' then parseStr fuel rest2 ('\t' :: acc)
        else if e = 'u' then
          match rest2 with
          | h1 :: h2 :: h3 :: h4 :: rest3 =>
            match hexVal h1, hexVal h2, hexVal h3, hexVal h4 with
            | some a, some b, some c', some d =>
              parseStr fuel rest3 (Char.ofNat (a * 4096 + b * 256 + c' * 16 + d) :: acc)
            | _, _, _, _ => none
          | _ => none
        else none
    else if c.toNat < 32 then none
    else parseStr fuel rest (c :: acc)

/-- Value of a digit run. -/
def natOfDigits (ds : List Char) : Nat :=
  ds.foldl (fun n c => n * 10 + (c.toNat - 48)) 0

/-- Optional fraction part of a JSON number. -/
def parseFrac : List Char → Option (ℚ × List Char)
  | '.' :: r =>
    match r.span Char.isDigit with
    | ([], _) => none
    | (fs, r2) => some ((natOfDigits fs : ℚ) / ((10 : ℚ) ^ fs.length), r2)
  | cs => some (0, cs)

/-- Optional exponent part of a JSON number. -/
def parseExp : List Char → Option (Int × List Char)
  | [] => some (0, [])
  | c :: r =>
    if c = 'e' ∨ c = 'E' then
      let sr : Int × List Char :=
        match r with
        | '+' :: x => (1, x)
        | '-' :: x => (-1, x)
        | _ => (1, r)
      match sr.2.span Char.isDigit with
      | ([], _) => none
      | (ds, r2) => some (sr.1 * (natOfDigits ds : Int), r2)
    else some (0, c :: r)

/-- JSON number parser: optional sign, integer part without leading
zeros, optional fraction and exponent, as `json.loads` accepts.
(The non-standard `NaN`/`Infinity` extensions are not modelled.) -/
def parseNum (cs : List Char) : Option (ℚ × List Char) :=
  let sgncs : ℚ × List Char :=
    match cs with
    | '-' :: r => (-1, r)
    | _ => (1, cs)
  match sgncs.2.span Char.isDigit with
  | ([], _) => none
  | (ds, rest) =>
    if 1 < ds.length ∧ ds.head? = some '0' then none
    else
      match parseFrac rest with
      | none => none
      | some (frac, rest2) =>
        match parseExp rest2 with
        | none => none
        | some (e, rest3) =>
          some (sgncs.1 * ((natOfDigits ds : ℚ) + frac) * (10 : ℚ) ^ e, rest3)

/-- Python `dict` write during object parsing: duplicate keys keep the
last value in the first key's position. -/
def objSet (fields : List (String × Json)) (k : String) (v : Json) : List (String × Json) :=
  aset fields k v

mutual

/-- JSON value parser (`fuel` only bounds the recursion; `jsonLoads`
supplies enough for any input). -/
def parseVal : Nat → List Char → Option (Json × List Char)
  | 0, _ => none
  | fuel + 1, cs =>
    match cs.dropWhile jsonWs with
    | [] => none
    | c :: rest =>
      if c = '"' then
        match parseStr (rest.length + 1) rest [] with
        | some (s, r) => some (Json.str s, r)
        | none => none
      else if c = '{' then parseObj fuel rest
      else if c = '[' then parseArr fuel rest
      else if c = 't' then
        match rest with
        | 'r' :: 'u' :: 'e' :: r => some (Json.bool true, r)
        | _ => none
      else if c = 'f' then
        match rest with
        | 'a' :: 'l' :: 's' :: 'e' :: r => some (Json.bool false, r)
        | _ => none
      else if c = 'n' then
        match rest with
        | 'u' :: 'l' :: 'l' :: r => some (Json.null, r)
        | _ => none
      else
        match parseNum (c :: rest) with
        | some (q, r) => some (Json.num q, r)
        | none => none

/-- JSON object parser, after the opening brace. -/
def parseObj : Nat → List Char → Option (Json × List Char)
  | 0, _ => none
  | fuel + 1, cs =>
    match cs.dropWhile jsonWs with
    | '}' :: r => some (Json.obj [], r)
    | _ => match parseMembers fuel cs [] with
      | some (fields, r) => some (Json.obj fields, r)
      | none => none

/-- JSON object member list parser. -/
def parseMembers : Nat → List Char → List (String × Json) →
    Option (List (String × Json) × List Char)
  | 0, _, _ => none
  | fuel + 1, cs, acc =>
    match cs.dropWhile jsonWs with
    | '"' :: r =>
      match parseStr (r.length + 1) r [] with
      | none => none
      | some (key, r2) =>
        match r2.dropWhile jsonWs with
        | ':' :: r3 =>
          match parseVal fuel r3 with
          | none => none
          | some (v, r4) =>
            let acc2 := objSet acc key v
            match r4.dropWhile jsonWs with
            | ',' :: r5 => parseMembers fuel r5 acc2
            | '}' :: r5 => some (acc2, r5)
            | _ => none
        | _ => none
    | _ => none

/-- JSON array parser, after the opening bracket. -/
def parseArr : Nat → List Char → Option (Json × List Char)
  | 0, _ => none
  | fuel + 1, cs =>
    match cs.dropWhile jsonWs with
    | ']' :: r => some (Json.arr [], r)
    | _ => match parseElems fuel cs [] with
      | some (elems, r) => some (Json.arr elems, r)
      | none => none

/-- JSON array element list parser. -/
def parseElems : Nat → List Char → List Json → Option (List Json × List Char)
  | 0, _, _ => none
  | fuel + 1, cs, acc =>
    match parseVal fuel cs with
    | none => none
    | some (v, r) =>
      match r.dropWhile jsonWs with
      | ',' :: r2 => parseElems fuel r2 (acc ++ [v])
      | ']' :: r2 => some (acc ++ [v], r2)
      | _ => none

end

/-- `json.loads`: parse a complete JSON document, rejecting trailing
content. -/
def jsonLoads (s : String) : Option Json :=
  let cs := s.toList
  match parseVal (2 * cs.length + 4) cs with
  | some (v, rest) => if rest.dropWhile jsonWs = [] then some v else none
  | none => none

/-! ### `Mediagent._synthesize_decision` (src/core/mediagent.py) -/

/-- `_try_parse_json` inside `_synthesize_decision`: extract the first
JSON object and parse it, `none` on either failure. -/
def try_parse_json (text : String) : Option Json :=
  match extract_json_object text with
  | none => none
  | some json_text => jsonLoads json_text

/-- The per-option loop of `_validate_data`, with 1-based indices in the
error strings. -/
def checkSols : Nat → List Json → Option String
  | _, [] => none
  | i, sol :: rest =>
    match sol with
    | .obj _ =>
      if truthyOpt (jget sol "title") = false ∨ truthyOpt (jget sol "description") = false then
        some ("option " ++ toString i ++ " missing title/description")
      else checkSols (i + 1) rest
    | _ => some ("option " ++ toString i ++ " is not an object")

/-- `_validate_data` inside `_synthesize_decision`: `none` when the
parsed reply is acceptable, an error string otherwise. -/
def validate_data (data : Json) : Option String :=
  match data with
  | .obj _ =>
    match jget data "proposed_solutions" with
    | some (.arr sols) =>
      if sols.length ≠ 3 then some "proposed_solutions must be a list of exactly 3 items"
      else checkSols 1 sols
    | _ => some "proposed_solutions must be a list of exactly 3 items"
  | _ => some "not a JSON object"

/-- Specification-side acceptance of one proposed solution (claim C5):
an object carrying a non-empty (truthy) title and description. -/
def solution_ok (sol : Json) : Bool :=
  match sol with
  | .obj _ => truthyOpt (jget sol "title") && truthyOpt (jget sol "description")
  | _ => false

/-- Specification-side acceptance predicate of claim C5, stated
independently of `_validate_data`'s control flow: a JSON object whose
`proposed_solutions` field is a list of exactly 3 acceptable
solutions. -/
def spec_valid_synthesis (data : Json) : Bool :=
  match data with
  | .obj _ =>
    match jget data "proposed_solutions" with
    | some (.arr sols) => sols.length == 3 && sols.all solution_ok
    | _ => false
  | _ => false

/-- `err = _validate_data(data) if data else "parse failed"` — note the
Python truthiness test: a parse failure and a falsy (empty) object both
yield `"parse failed"`. -/
def errOf (data : Option Json) : Option String :=
  match data with
  | some d => if truthy d then validate_data d else some "parse failed"
  | none => some "parse failed"

/-- The repair trigger `data is None or err is not None` of
`_synthesize_decision`. -/
def synthBad (data : Option Json) : Bool :=
  data.isNone || (errOf data).isSome

/-- `raw` after the truncation-retry step of `_synthesize_decision`: the
first reply, unless it is non-empty and does not end (stripped) with a
closing brace, in which case the shorter regeneration's reply; `none`
when the generate call used raises. -/
def synthRaw (g1 g2 : Option String) : Option String :=
  match g1 with
  | none => none
  | some r0 =>
    if r0 ≠ "" ∧ strip_ends_with_brace r0 = false then g2 else some r0

/-- Result of `Mediagent._synthesize_decision`. -/
structure SynthRes where
  session : Session
  broadcasts : List String
deriving DecidableEq

/-- The message broadcast when synthesis output stays invalid after the
repair ladder (raw model output exposed to participants). -/
def synth_fail_message (raw : String) : String :=
  "Final synthesis could not be parsed into 3 real options.\n\nHere is the raw LLM output so you can inspect what went wrong:\n\n"
    ++ raw

/-- The `except` arm of `_synthesize_decision`: broadcast the error and
close the session. -/
def synthExcept (s : Session) (now : Nat) : SynthRes :=
  { session := { s with status := .completed, completed_at := some now }
    broadcasts := ["An error occurred during synthesis"] }

/-- The still-invalid arm of `_synthesize_decision`: broadcast the raw
output and close the session without creating a Decision. -/
def synthFail (s : Session) (raw : String) (now : Nat) : SynthRes :=
  { session := { s with status := .completed, completed_at := some now }
    broadcasts := [synth_fail_message raw] }

/-- String coercion for a pydantic `str` field (a non-string value makes
the `Decision(...)` constructor raise, landing in the `except` arm). -/
def asStr : Option Json → Option String
  | some (.str s) => some s
  | none => some ""
  | _ => none

/-- Coercion for a pydantic `list[str]` field, after the code's
`x.get(k, []) or []` falsy-to-empty normalization. -/
def asStrList : Option Json → Option (List String)
  | none => some []
  | some j =>
    if truthy j = false then some []
    else match j with
      | .arr elems =>
        elems.foldr
          (fun e acc => match e, acc with
            | .str s, some l => some (s :: l)
            | _, _ => none)
          (some [])
      | _ => none

/-- Build one `ProposedSolution` dict of the success arm of
`_synthesize_decision` (`none` models the pydantic validation raising). -/
def coerceSolution (j : Json) : Option ProposedSolution :=
  match j with
  | .obj _ =>
    match asStr (some ((jget j "title").getD (.str ""))),
        asStr (some ((jget j "description").getD (.str ""))),
        asStrList (jget j "pros"), asStrList (jget j "cons") with
    | some t, some d, some ps, some cs =>
      some { title := t, description := d, pros := ps, cons := cs, votes := [] }
    | _, _, _, _ => none
  | _ => none

/-- Build the `Decision` of the success arm of `_synthesize_decision`
(`none` models the pydantic validation raising). -/
def coerceDecision (data : Json) : Option Decision :=
  match jget data "proposed_solutions" with
  | some (.arr sols) =>
    match sols.foldr
        (fun e acc => match coerceSolution e, acc with
          | some sol, some l => some (sol :: l)
          | _, _ => none)
        (some []) with
    | none => none
    | some proposed =>
      match asStr (some ((jget data "summary").getD (.str ""))),
          asStrList (jget data "key_agreements"), asStrList (jget data "remaining_tensions") with
      | some summary, some agreements, some tensions =>
        some { summary := summary, key_agreements := agreements
               remaining_tensions := tensions, proposed_solutions := proposed
               winning_solution := none }
      | _, _, _ => none
  | _ => none

/-- The success arm of `_synthesize_decision`: build the Decision, store
it, move to `VOTING` and broadcast the summary and the voting options
(messages abbreviated to their identifying heads). -/
def synthBuild (s : Session) (data : Json) (now : Nat) : SynthRes :=
  match coerceDecision data with
  | none => synthExcept s now
  | some decision =>
    { session := { s with decision := some decision, status := .voting }
      broadcasts := ["Decision Summary", "Please vote on the following options"] }

/-- `Mediagent._synthesize_decision` from src/core/mediagent.py.  `g1`
is the synthesis generate call, `g2` the shorter regeneration used when
`g1`'s reply looks truncated, `g3` the strict repair call; `none` models
the call raising. -/
def synthesize_decision (s : Session) (g1 g2 g3 : Option String) (now : Nat) : SynthRes :=
  match synthRaw g1 g2 with
  | none => synthExcept s now
  | some raw =>
    let data := try_parse_json raw
    if synthBad data then
      match g3 with
      | none => synthExcept s now
      | some repaired =>
        let data2 := try_parse_json repaired
        if synthBad data2 then synthFail s raw now
        else synthBuild s (data2.getD .null) now
    else synthBuild s (data.getD .null) now

/-! ### Concrete inputs used by witnesses and counterexamples -/

/-- An active member. -/
def memA : Member := { id := "a", name := "Ann" }

/-- Another active member. -/
def memB : Member := { id := "b", name := "Bob" }

/-- An inactive member. -/
def memInactive : Member := { id := "m", name := "Mia", is_active := false }

/-- A solution with one vote. -/
def solA : ProposedSolution := { title := "A", description := "plan A", votes := ["m1"] }

/-- A solution with two votes (tied at the maximum). -/
def solB : ProposedSolution := { title := "B", description := "plan B", votes := ["m2", "m3"] }

/-- Another solution with two votes (tied at the maximum). -/
def solC : ProposedSolution := { title := "C", description := "plan C", votes := ["m4", "m5"] }

/-- A voting session with vote counts [1, 2, 2]: options B and C are tied
at the maximum while option A is not. -/
def tieSession : Session :=
  { topic := "t", admin_id := "a", members := [("a", memA), ("b", memB)]
    status := .voting
    decision := some { summary := "s", proposed_solutions := [solA, solB, solC] } }

/-- A session that already reached `COMPLETED`. -/
def completedSession : Session :=
  { topic := "t", admin_id := "a", members := [("a", memA), ("b", memB)]
    status := .completed, current_round := 2, completed_at := some 40 }

/-- A `COLLECTING` session in round 1 where member `a` has responded and
member `b` has not. -/
def collectingSession : Session :=
  { topic := "t", admin_id := "a", members := [("a", memA), ("b", memB)]
    status := .collecting, current_round := 1
    rounds := [(1,
      { round_number := 1
        responses := [("a",
          { member_id := "a", round_number := 1, question := "", answer := "ya" })] })] }

/-- A `COLLECTING` session whose only member is inactive and whose
configured minimum response percentage is zero. -/
def emptyQuorumSession : Session :=
  { topic := "t", admin_id := "m", min_response_percentage := 0
    members := [("m", memInactive)], status := .collecting, current_round := 1
    rounds := [(1, { round_number := 1 })] }

/-- The same no-active-member session with the default (positive)
minimum response percentage. -/
def emptyActiveSession : Session :=
  { emptyQuorumSession with min_response_percentage := 60 }

/-- A `PROCESSING` session about to run final synthesis, with no decision
yet. -/
def preSynthSession : Session :=
  { topic := "t", admin_id := "a", status := .processing, current_round := 3
    members := [("a", memA)] }

/-- A `PROCESSING` session one round below the terminal round, used for
the generation-failure branch. -/
def midGenSession : Session :=
  { topic := "t", admin_id := "a", status := .processing, current_round := 1
    max_iterations := 3, members := [("a", memA)] }

/-- A well-formed proposed-solution object. -/
def okSol (t d : String) : Json :=
  Json.obj [("title", Json.str t), ("description", Json.str d)]

/-- A parsed synthesis reply with only 2 proposed solutions. -/
def reply2 : Json :=
  Json.obj [("proposed_solutions", Json.arr [okSol "A" "da", okSol "B" "db"])]

/-- A parsed synthesis reply with exactly 3 well-formed solutions. -/
def reply3 : Json :=
  Json.obj [("proposed_solutions",
    Json.arr [okSol "A" "da", okSol "B" "db", okSol "C" "dc"])]

/-- A parsed synthesis reply with 4 proposed solutions. -/
def reply4 : Json :=
  Json.obj [("proposed_solutions",
    Json.arr [okSol "A" "da", okSol "B" "db", okSol "C" "dc", okSol "D" "dd"])]

/-! ### Helper lemmas on association lists -/

theorem alookup_nil {α β : Type} [BEq α] (rn : α) : alookup (β := β) rn [] = none := rfl

theorem alookup_cons {α β : Type} [DecidableEq α] [BEq α] [LawfulBEq α] (p : α × β) (l : List (α × β))
    (rn : α) : alookup rn (p :: l) = if p.1 = rn then some p.2 else alookup rn l := by
  by_cases h : p.1 = rn
  · simp [alookup, List.find?, h]
  · have hb : (p.1 == rn) = false := by simp [h]
    simp [alookup, List.find?, h, hb]

theorem alookup_aset {α β : Type} [DecidableEq α] [BEq α] [LawfulBEq α] (l : List (α × β)) (k rn : α)
    (v : β) : alookup rn (aset l k v) = if rn = k then some v else alookup rn l := by
  induction l with
  | nil =>
    by_cases h : rn = k
    · subst h; simp [aset, alookup_cons]
    · rw [show aset ([] : List (α × β)) k v = [(k, v)] from rfl, alookup_cons,
        if_neg (fun hh => h hh.symm), if_neg h, alookup_nil]
  | cons p l ih =>
    by_cases hpk : p.1 = k
    · rw [show aset (p :: l) k v = (k, v) :: l from by simp [aset, hpk], alookup_cons]
      by_cases h : rn = k
      · simp [h]
      · rw [if_neg (fun hh : k = rn => h hh.symm), if_neg h, alookup_cons,
          if_neg (fun hh : p.1 = rn => h (hpk ▸ hh).symm)]
    · rw [show aset (p :: l) k v = p :: aset l k v from by simp [aset, hpk], alookup_cons]
      by_cases hpr : p.1 = rn
      · have h : rn ≠ k := fun hh => hpk (hpr.trans hh)
        rw [if_pos hpr, if_neg h, alookup_cons, if_pos hpr]
      · rw [if_neg hpr, ih]
        by_cases h : rn = k
        · simp [h]
        · rw [if_neg h, if_neg h, alookup_cons, if_neg hpr]

theorem alookup_none_not_mem {α β : Type} [DecidableEq α] [BEq α] [LawfulBEq α] (l : List (α × β))
    (k : α) (h : alookup k l = none) : k ∉ l.map Prod.fst := by
  induction l with
  | nil => simp
  | cons p l ih =>
    rw [alookup_cons] at h
    by_cases hpk : p.1 = k
    · simp [hpk] at h
    · simp only [List.map_cons, List.mem_cons, not_or]
      exact ⟨fun hh => hpk hh.symm, ih (by simpa [hpk] using h)⟩

/-! ### Behaviour lemmas shared by several claims -/

theorem submit_response_session_cases (s : Session) (m a : String) :
    (submit_response s m a).session = s ∨
    ∃ rd, s.get_current_round_data = some rd ∧ alookup m rd.responses = none ∧
      (submit_response s m a).session =
        { s with rounds := (aset s.rounds s.current_round
            { rd with responses := rd.responses ++ [(m, new_response s m a rd)] }) } := by
  by_cases h1 : s.status ≠ SessionStatus.collecting
  · left; simp [submit_response, h1]
  · by_cases h2 : (alookup m s.members).isNone
    · left; simp [submit_response, h1, h2]
    · rcases hcr : s.get_current_round_data with _ | rd
      · left; simp [submit_response, h1, h2, hcr]
      · rcases h3 : alookup m rd.responses with _ | v
        · right
          exact ⟨rd, rfl, h3, by simp [submit_response, new_response, h1, h2, hcr, h3]⟩
        · left; simp [submit_response, h1, h2, hcr, h3]

theorem submit_response_members (s : Session) (m a : String) :
    (submit_response s m a).session.members = s.members := by
  rcases submit_response_session_cases s m a with h | ⟨rd, _, _, h⟩ <;> rw [h]

theorem collectingSession_percentage : collectingSession.get_response_percentage = 50 := by
  norm_num [Session.get_response_percentage, Session.get_current_round_data,
    Session.get_active_members, collectingSession, alookup, List.find?, memA, memB]

theorem collectingSession_min_responses :
    collectingSession.min_responses_received = false := by
  rw [Session.min_responses_received, decide_eq_false_iff_not, collectingSession_percentage]
  norm_num [collectingSession]

theorem collectingSession_after_submit_all :
    ((submit_response collectingSession "b" "hi").session).all_responses_received = true := by
  rw [show (submit_response collectingSession "b" "hi").session =
      { collectingSession with rounds := [(1,
        { round_number := 1
          responses := [("a",
            { member_id := "a", round_number := 1, question := "", answer := "ya" }),
            ("b",
            { member_id := "b", round_number := 1, question := "", answer := "hi" })] })] }
    from rfl]
  rw [Session.all_responses_received, decide_eq_true_eq]
  norm_num [Session.get_response_percentage, Session.get_current_round_data,
    Session.get_active_members, collectingSession, alookup, List.find?, memA, memB]

/-- Claim C9: a second `submit_response` call from a member who already
has a response recorded in the current round is rejected with a
validation error and leaves the session (in particular the round's
responses mapping) unchanged; and `submit_response` preserves the
invariant that each member appears in a round's responses at most
once. -/
theorem c9_duplicate_submission_rejected :
    (∀ (s : Session) (member_id answer : String) (round_data : RoundData),
      s.status = SessionStatus.collecting →
      (alookup member_id s.members).isSome = true →
      s.get_current_round_data = some round_data →
      (alookup member_id round_data.responses).isSome = true →
      submit_response s member_id answer =
        ⟨s, false, "You have already submitted a response for this round"⟩) ∧
    (∀ (s : Session) (m a : String) (rn : Nat) (rd rd' : RoundData),
      alookup rn s.rounds = some rd → (rd.responses.map Prod.fst).Nodup →
      alookup rn (submit_response s m a).session.rounds = some rd' →
      (rd'.responses.map Prod.fst).Nodup) := by
  constructor
  · intro s member_id answer round_data hst hmem hrd hdup
    obtain ⟨mv, hm⟩ := Option.isSome_iff_exists.mp hmem
    simp [submit_response, hst, hm, hrd, hdup]
  · intro s m a rn rd rd' hrd hnd hrd'
    rcases submit_response_session_cases s m a with h | ⟨rd0, hcr, hnone, h⟩
    · rw [h, hrd] at hrd'
      exact (Option.some_inj.mp hrd') ▸ hnd
    · rw [h] at hrd'
      simp only at hrd'
      rw [alookup_aset] at hrd'
      by_cases hrn : rn = s.current_round
      · rw [if_pos hrn] at hrd'
        have hrd0 : rd = rd0 := by
          have : alookup s.current_round s.rounds = some rd0 := hcr
          rw [← hrn, hrd] at this
          exact Option.some_inj.mp this
        have hnotmem : m ∉ rd0.responses.map Prod.fst := alookup_none_not_mem _ _ hnone
        have hkeys : rd'.responses.map Prod.fst = rd0.responses.map Prod.fst ++ [m] := by
          rw [← Option.some_inj.mp hrd']
          simp
        rw [hkeys]
        have hnd0 : (rd0.responses.map Prod.fst).Nodup := hrd0 ▸ hnd
        refine List.Nodup.append hnd0 (List.nodup_singleton m) ?_
        intro x hx hxm
        rw [List.mem_singleton] at hxm
        exact hnotmem (hxm ▸ hx)
      · rw [if_neg hrn, hrd] at hrd'
        exact (Option.some_inj.mp hrd') ▸ hnd

/-- Claim C9 witness: the already-responded member `a` of
`collectingSession` is rejected on a second submission, which leaves the
session unchanged. -/
theorem c9_duplicate_submission_rejected_witness :
    submit_response collectingSession "a" "again" =
      ⟨collectingSession, false, "You have already submitted a response for this round"⟩ :=
  c9_duplicate_submission_rejected.1 collectingSession "a" "again"
    { round_number := 1
      responses := [("a",
        { member_id := "a", round_number := 1, question := "", answer := "ya" })] }
    rfl rfl rfl rfl

/-- Claim C3 (amended): `COMPLETED` and `CANCELLED` sessions are left
unchanged by `submit_response`, `force_proceed`, `handle_vote` and a
timeout firing, but `cancel_session` unconditionally sets the status to
`CANCELLED`, even on a `COMPLETED` session. -/
theorem c3_terminal_states_amended (s : Session) (m a : String) (i : Int)
    (tr : Option String) (sW : Option Session) (now : Nat)
    (h : s.status = SessionStatus.completed ∨ s.status = SessionStatus.cancelled) :
    (submit_response s m a).session = s ∧ (submit_response s m a).ok = false ∧
    (force_proceed s now).session = s ∧ (force_proceed s now).ok = false ∧
    (handle_vote s m i tr now).session = s ∧ (handle_vote s m i tr now).ok = false ∧
    handle_timeout (some s) sW now = (some s, TimeoutPath.earlyReturn) ∧
    (cancel_session s).status = SessionStatus.cancelled := by
  have hne_coll : s.status ≠ SessionStatus.collecting := by
    rcases h with h | h <;> simp [h]
  have hne_vote : s.status ≠ SessionStatus.voting := by
    rcases h with h | h <;> simp [h]
  refine ⟨?_, ?_, ?_, ?_, ?_, ?_, ?_, rfl⟩
  · simp [submit_response, hne_coll]
  · simp [submit_response, hne_coll]
  · simp [force_proceed, hne_coll]
  · simp [force_proceed, hne_coll]
  · simp [handle_vote, hne_vote]
  · simp [handle_vote, hne_vote]
  · simp [handle_timeout, hne_coll]

/-- Claim C3 witness: the amended claim applied to a concrete
`COMPLETED` session. -/
theorem c3_terminal_states_witness :
    completedSession.status = SessionStatus.completed ∧
    (submit_response completedSession "b" "hi").session = completedSession ∧
    handle_timeout (some completedSession) none 3 =
      (some completedSession, TimeoutPath.earlyReturn) ∧
    (cancel_session completedSession).status = SessionStatus.cancelled :=
  ⟨rfl,
    (c3_terminal_states_amended completedSession "b" "hi" 0 none none 3 (Or.inl rfl)).1,
    (c3_terminal_states_amended completedSession "b" "hi" 0 none none 3
      (Or.inl rfl)).2.2.2.2.2.2.1,
    (c3_terminal_states_amended completedSession "b" "hi" 0 none none 3
      (Or.inl rfl)).2.2.2.2.2.2.2⟩

/-- Claim C3 counterexample: `cancel_session` applied to a `COMPLETED`
session does not leave it `COMPLETED` — it moves it to `CANCELLED`, so
`COMPLETED` is not terminal under `cancel_session` as the claim
states. -/
theorem c3_terminal_states_counterexample :
    completedSession.status = SessionStatus.completed ∧
    (cancel_session completedSession).status ≠ SessionStatus.completed ∧
    (cancel_session completedSession).status = SessionStatus.cancelled :=
  ⟨rfl, by decide, rfl⟩

/-- Claim C2: a round-timeout handler that fires after the session has
already left `COLLECTING` returns without touching the session or
invoking `_process_round`; the same holds when the handler wakes from its
grace-period sleep and the re-checked session has left `COLLECTING`. -/
theorem c2_timeout_single_completion (sFire sWake : Option Session) (now : Nat) :
    ((∀ s, sFire = some s → s.status ≠ SessionStatus.collecting) →
      handle_timeout sFire sWake now = (sFire, TimeoutPath.earlyReturn)) ∧
    (∀ s, sFire = some s → s.status = SessionStatus.collecting →
      s.min_responses_received = false →
      (∀ w, sWake = some w → w.status ≠ SessionStatus.collecting) →
      handle_timeout sFire sWake now = (sWake, TimeoutPath.graceNoop)) := by
  constructor
  · intro h
    match sFire with
    | none => rfl
    | some s =>
      have hs := h s rfl
      simp [handle_timeout, hs]
  · intro s hs hcoll hmin hW
    subst hs
    simp only [handle_timeout]
    rw [if_neg (fun hc => hc hcoll), if_neg (by simp [hmin])]
    match sWake with
    | none => rfl
    | some w =>
      have hw := hW w rfl
      simp [hw]

/-- Claim C2 witness: a timer firing on an already-`COMPLETED` session is
a no-op, and a timer that entered its grace period and wakes to find the
session `COMPLETED` is a no-op. -/
theorem c2_timeout_single_completion_witness :
    handle_timeout (some completedSession) (some collectingSession) 3 =
      (some completedSession, TimeoutPath.earlyReturn) ∧
    handle_timeout (some collectingSession) (some completedSession) 3 =
      (some completedSession, TimeoutPath.graceNoop) :=
  ⟨(c2_timeout_single_completion (some completedSession) (some collectingSession) 3).1
      (fun s hs => by cases hs; decide),
    (c2_timeout_single_completion (some collectingSession) (some completedSession) 3).2
      collectingSession rfl rfl collectingSession_min_responses
      (fun w hw => by cases hw; decide)⟩

/-- Claim C7: a successful response submission (round ≥ 1) that brings
coverage to 100 percent makes `handle_response` cancel the round timer
and invoke `_process_round` immediately; and the coverage percentage is
always computed against the current active-member set of the session at
check time, not a snapshot. -/
theorem c7_full_coverage_completes (s : Session) (member_id answer : String) (now : Nat)
    (hcr : s.current_round ≠ 0)
    (hok : (submit_response s member_id answer).ok = true)
    (hall : ((submit_response s member_id answer).session).all_responses_received = true) :
    (handle_response s member_id answer now).timeoutCancelled = true ∧
    (handle_response s member_id answer now).processRoundInvoked = true ∧
    (∀ (s' : Session) (rd : RoundData), s'.get_current_round_data = some rd →
      s'.get_active_members ≠ [] →
      s'.get_response_percentage =
        ((rd.responses.length : ℚ) / ((s'.get_active_members).length : ℚ)) * 100) := by
  refine ⟨?_, ?_, ?_⟩
  · simp [handle_response, hcr, hok, hall]
  · simp [handle_response, hcr, hok, hall]
  · intro s' rd hrd hact
    rcases ha : s'.get_active_members with _ | ⟨x, xs⟩
    · exact absurd ha hact
    · simp [Session.get_response_percentage, hrd, ha]

/-- Claim C7 witness: member `b`'s submission completes the coverage of
`collectingSession`, so the timer is cancelled and the round processed at
once. -/
theorem c7_full_coverage_completes_witness :
    (handle_response collectingSession "b" "hi" 9).timeoutCancelled = true ∧
    (handle_response collectingSession "b" "hi" 9).processRoundInvoked = true :=
  ⟨(c7_full_coverage_completes collectingSession "b" "hi" 9 (by decide) rfl
      collectingSession_after_submit_all).1,
    (c7_full_coverage_completes collectingSession "b" "hi" 9 (by decide) rfl
      collectingSession_after_submit_all).2.1⟩

/-- Claim C8: when question generation fails on both the initial attempt
and its retry, `current_round` is not advanced; on the terminal round
(`current_round ≥ max_iterations - 1`) synthesis is attempted directly,
otherwise the session returns to `COLLECTING` and the admin is told that
force-proceed is available. -/
theorem c8_generation_double_failure (s : Session) (now : Nat) :
    (generate_next_questions s none none now).session.current_round = s.current_round ∧
    (s.max_iterations - 1 ≤ s.current_round →
      (generate_next_questions s none none now).synthInvoked = true ∧
      (generate_next_questions s none none now).session = s) ∧
    (s.current_round < s.max_iterations - 1 →
      (generate_next_questions s none none now).session.status = SessionStatus.collecting ∧
      (generate_next_questions s none none now).synthInvoked = false ∧
      force_proceed_hint ∈ (generate_next_questions s none none now).broadcasts) := by
  by_cases h : s.max_iterations - 1 ≤ s.current_round
  · refine ⟨?_, fun _ => ⟨?_, ?_⟩, fun h' => absurd h (not_le.mpr h')⟩ <;>
      simp [generate_next_questions, h]
  · refine ⟨?_, fun h'' => absurd h'' h, fun _ => ⟨?_, ?_, ?_⟩⟩ <;>
      simp [generate_next_questions, h]

/-- Claim C8 witness: `midGenSession` (round 1 of 3) with both generation
attempts failing stays in round 1, returns to `COLLECTING` and broadcasts
the force-proceed hint. -/
theorem c8_generation_double_failure_witness :
    (generate_next_questions midGenSession none none 9).session.current_round = 1 ∧
    (generate_next_questions midGenSession none none 9).session.status =
      SessionStatus.collecting ∧
    force_proceed_hint ∈ (generate_next_questions midGenSession none none 9).broadcasts :=
  ⟨(c8_generation_double_failure midGenSession 9).1,
    ((c8_generation_double_failure midGenSession 9).2.2 (by decide)).1,
    ((c8_generation_double_failure midGenSession 9).2.2 (by decide)).2.2⟩

/-- Claim C10 (amended): the coverage computation is total — it returns 0
whenever the current round data is missing or no member is active; with
no active members `all_responses_received` is false, and (provided the
configured minimum response percentage is positive)
`min_responses_received` is false too, so neither the 100-percent
coverage path of `handle_response` nor the quorum branch of the timeout
handler can complete a round of such a session. -/
theorem c10_coverage_total_amended (s : Session) (sW : Option Session) (m a : String)
    (now : Nat) :
    (s.get_current_round_data = none ∨ s.get_active_members = [] →
      s.get_response_percentage = 0) ∧
    (s.get_active_members = [] → s.all_responses_received = false) ∧
    (s.get_active_members = [] → 0 < s.min_response_percentage →
      s.min_responses_received = false) ∧
    (s.get_active_members = [] →
      (handle_response s m a now).processRoundInvoked = false) ∧
    (s.get_active_members = [] → 0 < s.min_response_percentage →
      (handle_timeout (some s) sW now).2 ≠ TimeoutPath.quorum) := by
  have hperc : ∀ t : Session, t.get_active_members = [] → t.get_response_percentage = 0 := by
    intro t ht
    rcases hcr : t.get_current_round_data with _ | rd <;>
      simp [Session.get_response_percentage, hcr, ht]
  have hall : ∀ t : Session, t.get_active_members = [] →
      t.all_responses_received = false := by
    intro t ht
    rw [Session.all_responses_received, decide_eq_false_iff_not, hperc t ht]
    norm_num
  have hmin : ∀ t : Session, t.get_active_members = [] → 0 < t.min_response_percentage →
      t.min_responses_received = false := by
    intro t ht hpos
    rw [Session.min_responses_received, decide_eq_false_iff_not, hperc t ht, not_le]
    exact_mod_cast hpos
  refine ⟨?_, hall s, hmin s, ?_, ?_⟩
  · rintro (h | h)
    · simp [Session.get_response_percentage, h]
    · exact hperc s h
  · intro ht
    by_cases hcr0 : s.current_round = 0
    · simp [handle_response, hcr0]
    · have hmem : (submit_response s m a).session.get_active_members =
          s.get_active_members := by
        unfold Session.get_active_members
        rw [submit_response_members]
      have hA := hall _ (hmem.trans ht)
      simp only [handle_response, if_neg hcr0]
      by_cases hok : (submit_response s m a).ok = false
      · simp [hok]
      · simp [hok, hA]
  · intro ht hpos
    by_cases hst : s.status ≠ SessionStatus.collecting
    · simp [handle_timeout, hst]
    · have hm := hmin s ht hpos
      simp only [handle_timeout]
      rw [if_neg hst, if_neg (by simp [hm])]
      rcases sW with _ | w
      · simp
      · by_cases hw : w.status = SessionStatus.collecting <;> simp [hw]

/-- Claim C10 witness: the amended claim applied to a session with no
active member and the default minimum percentage: coverage is 0, neither
completion predicate holds, and neither the 100-percent path nor the
quorum branch fires. -/
theorem c10_coverage_total_amended_witness :
    emptyActiveSession.get_response_percentage = 0 ∧
    emptyActiveSession.all_responses_received = false ∧
    emptyActiveSession.min_responses_received = false ∧
    (handle_response emptyActiveSession "m" "x" 4).processRoundInvoked = false ∧
    (handle_timeout (some emptyActiveSession) none 4).2 ≠ TimeoutPath.quorum :=
  ⟨(c10_coverage_total_amended emptyActiveSession none "m" "x" 4).1 (Or.inr rfl),
    (c10_coverage_total_amended emptyActiveSession none "m" "x" 4).2.1 rfl,
    (c10_coverage_total_amended emptyActiveSession none "m" "x" 4).2.2.1 rfl (by decide),
    (c10_coverage_total_amended emptyActiveSession none "m" "x" 4).2.2.2.1 rfl,
    (c10_coverage_total_amended emptyActiveSession none "m" "x" 4).2.2.2.2 rfl (by decide)⟩

/-- Claim C10 counterexample: a session whose configured minimum response
percentage is 0 (a value its model allows) has no active members, yet
`min_responses_received` returns true — so the quorum branch of the
timeout handler can fire for it, contradicting the claim. -/
theorem c10_coverage_total_counterexample :
    emptyQuorumSession.get_active_members = [] ∧
    emptyQuorumSession.min_responses_received = true := by
  refine ⟨rfl, ?_⟩
  rw [Session.min_responses_received, decide_eq_true_eq]
  norm_num [Session.get_response_percentage, Session.get_current_round_data,
    Session.get_active_members, emptyQuorumSession, alookup, List.find?, memInactive]

/-! ### Lemmas for the extractor claim -/

theorem scanObj_append (l m : List Char) :
    ∀ (d : Int) (i e : Bool) (acc r : List Char),
      scanObj l d i e acc = some r → scanObj (l ++ m) d i e acc = some r := by
  induction l with
  | nil => intro d i e acc r h; simp [scanObj] at h
  | cons c rest ih =>
    intro d i e acc r h
    rw [List.cons_append]
    simp only [scanObj] at h ⊢
    by_cases hc : (i = false ∧ c = '}' ∧ d - 1 = 0)
    · rw [if_pos hc] at h ⊢; exact h
    · rw [if_neg hc] at h ⊢; exact ih _ _ _ _ _ h

theorem closes_append (l m : List Char) (h : closes l = true) : closes (l ++ m) = true := by
  unfold closes at h ⊢
  obtain ⟨r, hr⟩ := Option.isSome_iff_exists.mp h
  rw [scanObj_append l m 0 false false [] r hr]
  rfl

theorem head_dropWhile_not (p : Char → Bool) (l : List Char) (c : Char)
    (h : (l.dropWhile p).head? = some c) : p c = false := by
  induction l with
  | nil => simp [List.dropWhile] at h
  | cons a as ih =>
    rw [List.dropWhile_cons] at h
    by_cases hp : p a = true
    · exact ih (by simpa [hp] using h)
    · have hb : p a = false := by simpa using hp
      simp only [hb, Bool.false_eq_true, if_false, List.head?_cons] at h
      exact (Option.some_inj.mp h) ▸ hb

theorem stripR_prefix_self (l : List Char) : stripR l <+: l := by
  have h := List.reverse_prefix.mpr (List.dropWhile_suffix (l := l.reverse) pySpace)
  simpa [stripR] using h

theorem stripLR_infix_self (l : List Char) : stripLR l <:+: l :=
  ((stripR_prefix_self (stripL l)).isInfix).trans ((List.dropWhile_suffix pySpace).isInfix)

theorem splitAtTicks_eq (cs : List Char) :
    ∀ b a, splitAtTicks cs = some (b, a) → cs = b ++ ticks ++ a := by
  induction cs with
  | nil => intro b a h; exact Option.noConfusion h
  | cons c cs' ih =>
    intro b a h
    simp only [splitAtTicks] at h
    by_cases ht : (c :: cs').take 3 = ticks
    · rw [if_pos ht] at h
      injection h with h2
      injection h2 with hb ha
      subst hb; subst ha
      rw [List.nil_append, ← ht, List.take_append_drop]
    · rw [if_neg ht] at h
      rcases hsp : splitAtTicks cs' with _ | ⟨b', a'⟩
      · rw [hsp] at h; exact Option.noConfusion h
      · rw [hsp] at h
        injection h with h2
        injection h2 with hb ha
        subst hb; subst ha
        rw [ih b' a' hsp]
        simp

theorem fenceContent_infix (t g : List Char) (h : fenceContent t = some g) : g <:+: t := by
  simp only [fenceContent, Option.bind_eq_some, Option.map_eq_some'] at h
  obtain ⟨⟨b, a⟩, h1, ⟨g0, rest2⟩, h2, hg⟩ := h
  subst hg
  have hg0 : g0 <+: (dropJsonTag a).dropWhile pySpace :=
    ⟨ticks ++ rest2, by rw [splitAtTicks_eq _ g0 rest2 h2]; simp⟩
  have hdw : (dropJsonTag a).dropWhile pySpace <:+ dropJsonTag a :=
    List.dropWhile_suffix _
  have hdj : dropJsonTag a <:+ a := by
    unfold dropJsonTag
    by_cases hj : (a.take 4).map Char.toLower = ("json").toList
    · rw [if_pos hj]; exact List.drop_suffix 4 a
    · rw [if_neg hj]
  have ha : a <:+ t := ⟨b ++ ticks, (splitAtTicks_eq t b a h1).symm⟩
  exact ((stripLR_infix_self g0).trans hg0.isInfix).trans
    (((hdw.isInfix).trans hdj.isInfix).trans ha.isInfix)

theorem hasBalancedObject_of (cs rest : List Char) (hinf : rest <:+: cs)
    (hhd : rest.head? = some '{') (hcl : closes rest = true) :
    hasBalancedObject cs = true := by
  obtain ⟨pre, post, hsplit⟩ := hinf
  have hd : cs.drop pre.length = rest ++ post := by
    rw [← hsplit, List.append_assoc, List.drop_left]
  have hlen : pre.length < cs.length := by
    rw [← hsplit]
    cases rest with
    | nil => simp at hhd
    | cons a as => simp [List.length_append]
  unfold hasBalancedObject
  rw [List.any_eq_true]
  refine ⟨pre.length, List.mem_range.mpr hlen, ?_⟩
  rw [hd]
  cases rest with
  | nil => simp at hhd
  | cons a as =>
    have ha : a = '{' := Option.some_inj.mp (by simpa using hhd)
    subst ha
    have hc := closes_append ('{' :: as) post hcl
    rw [List.cons_append] at hc
    simp [hc]

theorem extractCore_some_balanced (cs r : List Char) (h : extractCore cs = some r) :
    hasBalancedObject cs = true := by
  simp only [extractCore] at h
  by_cases he : ((fenceContent (stripLR cs)).getD (stripLR cs)).dropWhile
      (fun c => c ≠ '{') |>.isEmpty
  · rw [if_pos he] at h; simp at h
  · rw [if_neg he] at h
    have hcl : closes (((fenceContent (stripLR cs)).getD (stripLR cs)).dropWhile
        (fun c => c ≠ '{')) = true := by
      unfold closes; rw [h]; rfl
    have hhd : (((fenceContent (stripLR cs)).getD (stripLR cs)).dropWhile
        (fun c => c ≠ '{')).head? = some '{' := by
      rcases hr : ((fenceContent (stripLR cs)).getD (stripLR cs)).dropWhile
          (fun c => c ≠ '{') with _ | ⟨c, cs'⟩
      · rw [hr] at he; simp at he
      · have hp := head_dropWhile_not (fun c => decide (c ≠ '{')) _ c (by rw [hr]; rfl)
        simp only [decide_not, Bool.not_eq_false', decide_eq_true_eq] at hp
        simp [hp]
    have hinf : (((fenceContent (stripLR cs)).getD (stripLR cs)).dropWhile
        (fun c => c ≠ '{')) <:+: cs := by
      have h1 : (((fenceContent (stripLR cs)).getD (stripLR cs)).dropWhile
          (fun c => c ≠ '{')) <:+ ((fenceContent (stripLR cs)).getD (stripLR cs)) :=
        List.dropWhile_suffix _
      have h2 : ((fenceContent (stripLR cs)).getD (stripLR cs)) <:+: stripLR cs := by
        rcases hf : fenceContent (stripLR cs) with _ | g
        · exact List.infix_refl _
        · exact fenceContent_infix _ g hf
      exact (h1.isInfix.trans h2).trans (stripLR_infix_self cs)
    exact hasBalancedObject_of cs _ hinf hhd hcl

/-- Claim C4: the extractor returns exactly the fenced object
`{"a":1,"b":"x}y"}` from the embedded-commentary input (the closing
brace inside the JSON string does not terminate the scan early), and it
returns none whenever the text contains no balanced brace-delimited
object at all. -/
theorem c4_extract_json_object :
    extract_json_object "prefix ```json\n\x7b\"a\":1,\"b\":\"x\x7dy\"\x7d\n``` suffix" =
      some "\x7b\"a\":1,\"b\":\"x\x7dy\"\x7d" ∧
    ∀ s : String, hasBalancedObject s.toList = false → extract_json_object s = none := by
  constructor
  · decide
  · intro s h
    rcases hx : extractCore s.toList with _ | r
    · show (extractCore s.toList).map String.mk = none
      rw [hx]; rfl
    · have := extractCore_some_balanced s.toList r hx
      rw [h] at this
      exact absurd this (by simp)

/-- Claim C4 witness: a text with no brace-delimited object at all is
mapped to none. -/
theorem c4_extract_json_object_witness :
    hasBalancedObject ("just text").toList = false ∧
    extract_json_object "just text" = none :=
  ⟨by decide, c4_extract_json_object.2 "just text" (by decide)⟩

theorem checkSols_none_iff (sols : List Json) :
    ∀ i, checkSols i sols = none ↔ sols.all solution_ok = true := by
  induction sols with
  | nil => intro i; simp [checkSols]
  | cons sol rest ih =>
    intro i
    cases sol with
    | obj fields =>
      cases ht : truthyOpt (jget (Json.obj fields) "title") <;>
        cases hd : truthyOpt (jget (Json.obj fields) "description") <;>
        simp [checkSols, solution_ok, ht, hd, ih (i + 1)]
    | null => simp [checkSols, solution_ok]
    | bool b => simp [checkSols, solution_ok]
    | num q => simp [checkSols, solution_ok]
    | str st => simp [checkSols, solution_ok]
    | arr l => simp [checkSols, solution_ok]

/-- Claim C5: `_validate_data` accepts a parsed reply exactly when it is
a JSON object whose `proposed_solutions` field is a list of exactly 3
elements, each an object carrying a non-empty (truthy) title and
description; replies with 2 or 4 solutions are rejected, a reply with 3
well-formed solutions is accepted. -/
theorem c5_validation_exactly_three :
    (∀ data : Json, validate_data data = none ↔ spec_valid_synthesis data = true) ∧
    validate_data reply2 = some "proposed_solutions must be a list of exactly 3 items" ∧
    validate_data reply4 = some "proposed_solutions must be a list of exactly 3 items" ∧
    validate_data reply3 = none := by
  refine ⟨?_, by decide, by decide, by decide⟩
  intro data
  cases data with
  | obj fields =>
    rcases hj : jget (Json.obj fields) "proposed_solutions" with _ | j
    · simp [validate_data, spec_valid_synthesis, hj]
    · cases j with
      | arr sols =>
        by_cases hlen : sols.length = 3
        · simp [validate_data, spec_valid_synthesis, hj, hlen, checkSols_none_iff sols 1]
        · simp [validate_data, spec_valid_synthesis, hj, hlen]
      | null => simp [validate_data, spec_valid_synthesis, hj]
      | bool b => simp [validate_data, spec_valid_synthesis, hj]
      | num q => simp [validate_data, spec_valid_synthesis, hj]
      | str st => simp [validate_data, spec_valid_synthesis, hj]
      | obj f2 => simp [validate_data, spec_valid_synthesis, hj]
  | null => simp [validate_data, spec_valid_synthesis]
  | bool b => simp [validate_data, spec_valid_synthesis]
  | num q => simp [validate_data, spec_valid_synthesis]
  | str st => simp [validate_data, spec_valid_synthesis]
  | arr l => simp [validate_data, spec_valid_synthesis]

/-- Claim C6: when synthesis output still fails extraction, JSON parsing
or schema validation after the repair ladder, the session is set to
`COMPLETED` with `completed_at` stamped, the raw model output is
broadcast, and no `Decision` is created — `session.decision` stays
`none`. -/
theorem c6_synth_failure_no_fabrication (s : Session) (g1 g2 g3 : Option String)
    (raw r3 : String) (now : Nat)
    (hdec : s.decision = none)
    (hraw : synthRaw g1 g2 = some raw)
    (hbad1 : synthBad (try_parse_json raw) = true)
    (hg3 : g3 = some r3)
    (hbad2 : synthBad (try_parse_json r3) = true) :
    (synthesize_decision s g1 g2 g3 now).session.status = SessionStatus.completed ∧
    (synthesize_decision s g1 g2 g3 now).session.completed_at = some now ∧
    (synthesize_decision s g1 g2 g3 now).session.decision = none ∧
    synth_fail_message raw ∈ (synthesize_decision s g1 g2 g3 now).broadcasts := by
  subst hg3
  simp only [synthesize_decision, hraw, hbad1, hbad2, if_true]
  exact ⟨rfl, rfl, hdec, by simp [synthFail]⟩

/-- Claim C6 witness: two unparsable replies and an unparsable repair
close `preSynthSession` with its raw output broadcast and no decision. -/
theorem c6_synth_failure_no_fabrication_witness :
    (synthesize_decision preSynthSession (some "x\x7d") none (some "y\x7d") 5).session.status
      = SessionStatus.completed ∧
    (synthesize_decision preSynthSession (some "x\x7d") none (some "y\x7d") 5).session.completed_at
      = some 5 ∧
    (synthesize_decision preSynthSession (some "x\x7d") none (some "y\x7d") 5).session.decision
      = none ∧
    synth_fail_message "x\x7d" ∈
      (synthesize_decision preSynthSession (some "x\x7d") none (some "y\x7d") 5).broadcasts :=
  c6_synth_failure_no_fabrication preSynthSession (some "x\x7d") none (some "y\x7d")
    "x\x7d" "y\x7d" 5 rfl (by decide) (by decide) rfl (by decide)

/-- Claim C1 (amended): in a tie whose tie-break reply contains no
parsable "Option N" marker, `_finalize_decision` defaults the chosen
index to 1 and picks `solutions[0]` — the first solution overall, which
coincides with the first tied option only when solution 1 is among the
tied; no fallback flag is recorded on the decision. -/
theorem c1_tie_fallback_amended (s : Session) (d : Decision) (reply : String) (now : Nat)
    (hd : s.decision = some d)
    (htie : 1 < (tieWinners d.proposed_solutions).length)
    (hparse : parseTieChoice reply = none) :
    (finalize_decision s (some reply) now).decision =
      some { d with winning_solution := d.proposed_solutions.head? } ∧
    (finalize_decision s (some reply) now).status = SessionStatus.completed ∧
    (finalize_decision s (some reply) now).completed_at = some now := by
  rcases hsols : d.proposed_solutions with _ | ⟨x, xs⟩
  · rw [hsols] at htie
    simp [tieWinners] at htie
  · rw [hsols] at htie
    refine ⟨?_, ?_, ?_⟩ <;>
      simp [finalize_decision, hd, hsols, hparse, htie]

/-- Claim C1 witness: the amended claim applied to `tieSession`
(vote counts [1, 2, 2]) and an unparsable reply: the stored winner is
`solA`, i.e. `solutions[0]`. -/
theorem c1_tie_fallback_amended_witness :
    ((finalize_decision tieSession (some "no marker") 7).decision.bind
        (fun d => d.winning_solution)) = some solA ∧
    (finalize_decision tieSession (some "no marker") 7).status = SessionStatus.completed := by
  have h := c1_tie_fallback_amended tieSession
    { summary := "s", proposed_solutions := [solA, solB, solC] }
    "no marker" 7 rfl (by decide) (by decide)
  exact ⟨by rw [h.1]; rfl, h.2.1⟩

/-- Claim C1 counterexample: with vote counts [1, 2, 2] the tied options
are B and C, the first tied option by original index is B — but the
no-marker fallback stores A (the first solution overall, not even tied)
as the winner, so the claim as stated is false. -/
theorem c1_tie_fallback_counterexample :
    1 < (tieWinners [solA, solB, solC]).length ∧
    (tieWinners [solA, solB, solC]).head? = some solB ∧
    parseTieChoice "no marker" = none ∧
    ((finalize_decision tieSession (some "no marker") 7).decision.bind
        (fun d => d.winning_solution)) = some solA ∧
    solA ≠ solB := by
  refine ⟨by decide, by decide, by decide, by decide, by decide⟩

end Mediagent
